import Mathlib

/-!
Shallow embedding of the request authorization and validation pipeline of the
admin-portfolio repository (Next.js + Prisma + zod), together with theorems
settling the specification claims about it.

Sources embedded:
- `src/lib/auth.ts` (JWT issue/verify, cookie attributes, bcrypt comparison)
- `middleware.ts` (route protection for `/dashboard` and `/api/admin`)
- `src/lib/cors.ts` and `next.config.ts` (CORS allow-list logic)
- `src/lib/validators.ts` (zod schemas for projects)
- the admin and public route handlers under `src/app/api`
-/

namespace Portfolio

/-! ## JWT token model (`src/lib/auth.ts`)

`generateToken` calls `jwt.sign(payload, JWT_SECRET, { expiresIn: '7d' })`;
`verifyToken` calls `jwt.verify(token, JWT_SECRET)` and returns `null` on any
thrown error (bad signature or expiry).  Time is modelled in seconds, as in
the JWT `iat`/`exp` claims; the signature is modelled symbolically: a token
records the secret it was signed with, and verification succeeds exactly when
that secret matches the verifier's secret and the token is not expired. -/

structure JWTPayload where
  userId : String
  email : String
  role : String
  deriving DecidableEq, Repr

/-- Seven days in seconds: `jsonwebtoken`'s `'7d'` expiry. -/
def sevenDaysSecs : Nat := 60 * 60 * 24 * 7

structure SignedToken where
  payload : JWTPayload
  iat : Nat
  exp : Nat
  signedWith : String
  deriving DecidableEq, Repr

/-- `generateToken` from `src/lib/auth.ts`: embeds the claims with
issued-at `now` and `exp = now + 7 days`, signed with the server secret. -/
def generateToken (secret : String) (now : Nat) (payload : JWTPayload) : SignedToken :=
  { payload := payload, iat := now, exp := now + sevenDaysSecs, signedWith := secret }

/-- `verifyToken` from `src/lib/auth.ts`: `jwt.verify` checks the signature
and rejects when the current time has reached `exp`; on any failure the
wrapper catches and returns `null` (here `none`). -/
def verifyToken (secret : String) (now : Nat) (t : SignedToken) : Option JWTPayload :=
  if t.signedWith = secret ∧ now < t.exp then some t.payload else none

/-! ## Middleware (`middleware.ts`)

```
const isProtectedRoute = pathname.startsWith('/dashboard') ||
                         pathname.startsWith('/api/admin');
```
then: OPTIONS preflight on `/api/admin` is answered 200 without auth; a
missing cookie gives a redirect for `/dashboard` paths and 401 for API paths;
an invalid/expired token likewise; a valid token with a role other than
`'ADMIN'` gives a redirect for `/dashboard` paths and 403 for API paths;
otherwise the request falls through to the route handler. -/

inductive Method where
  | GET | POST | PUT | PATCH | DELETE | OPTIONS
  deriving DecidableEq, Repr

structure MwRequest where
  path : String
  method : Method
  cookieToken : Option SignedToken
  deriving Repr

structure HttpResponse where
  status : Nat
  deriving DecidableEq, Repr

/-- JavaScript `String.prototype.startsWith`, as used by the middleware. -/
def jsStartsWith (s pre : String) : Bool :=
  pre.data.isPrefixOf s.data

/-- `middleware.ts`: `some r` is a terminal response produced by the
middleware itself (the login redirect is modelled by its 307 status);
`none` is `NextResponse.next()`, passing the request on to the handler. -/
def middleware (secret : String) (now : Nat) (req : MwRequest) : Option HttpResponse :=
  if jsStartsWith req.path "/dashboard" || jsStartsWith req.path "/api/admin" then
    if jsStartsWith req.path "/api/admin" && (req.method = Method.OPTIONS : Bool) then
      some { status := 200 }
    else
      match req.cookieToken with
      | none =>
        if jsStartsWith req.path "/dashboard" then some { status := 307 }
        else some { status := 401 }
      | some t =>
        match verifyToken secret now t with
        | some payload =>
          if payload.role ≠ "ADMIN" then
            if jsStartsWith req.path "/dashboard" then some { status := 307 }
            else some { status := 403 }
          else none
        | none =>
          if jsStartsWith req.path "/dashboard" then some { status := 307 }
          else some { status := 401 }
  else none

/-- A route handler behind the middleware: the middleware's decision is
terminal when present, otherwise the handler runs. -/
def runRoute (secret : String) (now : Nat) (handler : MwRequest → HttpResponse)
    (req : MwRequest) : HttpResponse :=
  match middleware secret now req with
  | some r => r
  | none => handler req

/-- The request carries a session cookie whose token verifies. -/
def validSession (secret : String) (now : Nat) (req : MwRequest) : Bool :=
  match req.cookieToken with
  | none => false
  | some t => (verifyToken secret now t).isSome

/-- The admin-about PUT handler (`src/app/api/admin/about/route.ts`) performs
no `isAdmin` check of its own: it validates the body and answers 200 or 400.
Body validation is abstracted to a boolean since only the status matters for
the authorization claims. -/
def adminAboutPUT (bodyValid : Bool) : MwRequest → HttpResponse :=
  fun _ => if bodyValid then { status := 200 } else { status := 400 }

end Portfolio

namespace Portfolio

/-! ## CORS (`src/lib/cors.ts` and `next.config.ts`)

`src/lib/cors.ts` keeps a static allow-list partitioned by environment and
emits `Access-Control-Allow-Origin` (echoing the single requesting origin)
plus `Access-Control-Allow-Credentials: true` only when the request origin
is in the list.  One snapshot of `next.config.ts` instead attaches a static
`Access-Control-Allow-Origin` header whose value is the comma-joined list of
all allowed origins to every `/api/:path*` response, regardless of the
request origin; the other snapshot removes that block with the comment that
`Access-Control-Allow-Origin` cannot contain multiple comma-separated
origins and that CORS is handled dynamically in the middleware. -/

def PRODUCTION_ORIGINS : List String :=
  ["https://alecam.dev", "https://www.alecam.dev"]

def DEVELOPMENT_ORIGINS : List String :=
  ["http://localhost:5173", "http://localhost:3000"]

/-- `getAllowedOrigins` from `src/lib/cors.ts`: production restricts the list
to the production domains; development allows both sets. -/
def getAllowedOrigins (isProduction : Bool) : List String :=
  if isProduction then PRODUCTION_ORIGINS
  else PRODUCTION_ORIGINS ++ DEVELOPMENT_ORIGINS

/-- The origin-dependent part of the CORS response headers:
`allowOrigin = none` means the `Access-Control-Allow-Origin` header is
absent; `allowCredentials = false` means `Access-Control-Allow-Credentials`
is absent. -/
structure CorsHeaders where
  allowOrigin : Option String
  allowCredentials : Bool
  deriving DecidableEq, Repr

/-- `getCorsHeaders` from `src/lib/cors.ts`: the allow-origin header is set,
to exactly the requesting origin, only when that origin is allow-listed, and
credentials are allowed only in that same case. -/
def getCorsHeaders (allowed : List String) (origin : Option String) : CorsHeaders :=
  match origin with
  | some o =>
      if allowed.contains o then { allowOrigin := some o, allowCredentials := true }
      else { allowOrigin := none, allowCredentials := false }
  | none => { allowOrigin := none, allowCredentials := false }

/-- The static allow-list of the `headers()` snapshot of `next.config.ts`. -/
def nextConfigAllowedOrigins (isProduction : Bool) : List String :=
  if isProduction then ["https://alecam.dev", "https://www.alecam.dev"]
  else ["http://localhost:5173", "http://localhost:5174"]

/-- The `headers()` snapshot of `next.config.ts` attaches
`Access-Control-Allow-Origin: allowedOrigins.join(',')` and
`Access-Control-Allow-Credentials: true` to every `/api/:path*` response,
independent of the request origin. -/
def nextConfigStaticCors (isProduction : Bool) : CorsHeaders :=
  { allowOrigin := some (String.intercalate "," (nextConfigAllowedOrigins isProduction)),
    allowCredentials := true }

/-! ## Session cookie (`setAuthCookie` in `src/lib/auth.ts`) -/

structure CookieAttrs where
  name : String
  value : String
  httpOnly : Bool
  secure : Bool
  sameSite : String
  maxAge : Nat
  path : String
  deriving DecidableEq, Repr

/-- `setAuthCookie` from `src/lib/auth.ts`: cookie `auth-token` with
`httpOnly: true`, `secure: process.env.NODE_ENV === 'production'`,
`sameSite: 'lax'`, `maxAge: 60 * 60 * 24 * 7`, `path: '/'`. -/
def setAuthCookie (nodeEnv : String) (token : String) : CookieAttrs :=
  { name := "auth-token"
    value := token
    httpOnly := true
    secure := nodeEnv = "production"
    sameSite := "lax"
    maxAge := 60 * 60 * 24 * 7
    path := "/" }

/-! ## Public about endpoint (`src/app/api/about/route.ts`) -/

structure I18nText where
  en : String
  es : String
  deriving DecidableEq, Repr

/-- The `About` database record (fields selected by the route handler). -/
structure AboutRecord where
  id : String
  title : I18nText
  description : I18nText
  shortBio : Option I18nText
  location : Option String
  email : Option String
  updatedAt : String
  deriving DecidableEq, Repr

/-- The JSON `data` object of a `/api/about` response: the default object
has no `id` field. -/
structure AboutData where
  id : Option String
  title : I18nText
  description : I18nText
  shortBio : Option I18nText
  location : Option String
  email : Option String
  updatedAt : String
  deriving DecidableEq, Repr

structure AboutResponse where
  status : Nat
  data : AboutData
  deriving DecidableEq, Repr

/-- The fixed default object returned when no About record exists
(`updatedAt` is the request-time timestamp). -/
def defaultAboutData (now : String) : AboutData :=
  { id := none
    title := { en := "About Me", es := "Sobre Mí" }
    description := { en := "", es := "" }
    shortBio := none
    location := none
    email := none
    updatedAt := now }

/-- `GET /api/about`: `prisma.about.findFirst()` is modelled by the optional
stored record; when absent the handler answers 200 with the default object,
otherwise 200 with the record's selected fields. There is no 404 branch. -/
def aboutGET (store : Option AboutRecord) (now : String) : AboutResponse :=
  match store with
  | none => { status := 200, data := defaultAboutData now }
  | some a =>
      { status := 200
        data := { id := some a.id, title := a.title, description := a.description,
                  shortBio := a.shortBio, location := a.location,
                  email := a.email, updatedAt := a.updatedAt } }

/-- A sample stored About record, used to evaluate `aboutGET` concretely. -/
def sampleAboutRecord : AboutRecord :=
  { id := "a1"
    title := { en := "t", es := "t" }
    description := { en := "d", es := "d" }
    shortBio := none
    location := some "Earth"
    email := none
    updatedAt := "u" }

/-! ## Input validation (`src/lib/validators.ts`, zod)

`createProjectSchema` is a zod object schema; `safeParse` runs every field's
checks and collects all issues across fields into one error list.  Each field
check below returns the list of issues it contributes (empty when the field
passes) together with the parsed value (meaningful only when there are no
issues), mirroring zod's behavior of running every check. -/

/-- A raw JSON string-valued field as JavaScript sees it: key absent
(`undefined`), JSON `null`, or a string.  The same type also represents a
validated optional-URL value, where `str` is then a valid URL. -/
inductive JStr where
  | absent
  | null
  | str (s : String)
  deriving DecidableEq, Repr

/-- One zod issue: the failing field's path and its message. -/
structure Issue where
  path : String
  message : String
  deriving DecidableEq, Repr

/-- A character allowed by the slug regex character class `[a-z0-9]`. -/
def isSlugChar (c : Char) : Bool :=
  ('a' ≤ c && c ≤ 'z') || c.isDigit

/-- Tail automaton of the slug regex `^[a-z0-9]+(?:-[a-z0-9]+)*$`: after an
accepted character, each further character is a slug character, and a hyphen
must be followed by at least one slug character. -/
def slugTailOk : List Char → Bool
  | [] => true
  | ['-'] => false
  | '-' :: c :: rest => isSlugChar c && slugTailOk rest
  | c :: rest => isSlugChar c && slugTailOk rest

/-- The slug regex `^[a-z0-9]+(?:-[a-z0-9]+)*$` of `createProjectSchema`. -/
def slugOk (s : String) : Bool :=
  match s.data with
  | [] => false
  | c :: rest => isSlugChar c && slugTailOk rest

/-- The accent-color regex `^#[0-9a-fA-F]{3,6}$`. -/
def hexColorOk (s : String) : Bool :=
  match s.data with
  | '#' :: rest =>
      rest.all (fun c => c.isDigit || ('a' ≤ c && c ≤ 'f') || ('A' ≤ c && c ≤ 'F'))
        && decide (3 ≤ rest.length) && decide (rest.length ≤ 6)
  | _ => false

/-- zod's `z.string().url()` check, abstracting WHATWG URL parsing: the
string must contain `://` with a nonempty scheme and a nonempty remainder.
The claims never depend on its fine structure: the empty string is handled
by preprocessing before this check is consulted. -/
def urlOk (s : String) : Bool :=
  match s.splitOn "://" with
  | scheme :: rest :: _ => !scheme.isEmpty && !rest.isEmpty
  | _ => false

/-- Raw bilingual object for `i18nStringSchema`: each language key may be
absent. -/
structure RawI18n where
  en : Option String
  es : Option String
  deriving DecidableEq, Repr

/-- `i18nStringSchema`: both `en` and `es` are required nonempty strings;
issues from both keys are collected. -/
def checkI18n (field : String) (r : Option RawI18n) : List Issue × I18nText :=
  match r with
  | none => ([{ path := field, message := "Required" }], { en := "", es := "" })
  | some o =>
      let enIssues := match o.en with
        | none => [{ path := field ++ ".en", message := "Required" }]
        | some s => if s.length < 1
            then [{ path := field ++ ".en", message := "English text is required" }] else []
      let esIssues := match o.es with
        | none => [{ path := field ++ ".es", message := "Required" }]
        | some s => if s.length < 1
            then [{ path := field ++ ".es", message := "Spanish text is required" }] else []
      (enIssues ++ esIssues, { en := o.en.getD "", es := o.es.getD "" })

/-- The `slug` field of `createProjectSchema`:
`z.string().min(1).max(100).regex(...)`, collecting every failed check. -/
def checkSlug (r : Option String) : List Issue × String :=
  match r with
  | none => ([{ path := "slug", message := "Required" }], "")
  | some s =>
      ((if s.length < 1 then [{ path := "slug", message := "Slug is required" }] else []) ++
       (if 100 < s.length
          then [{ path := "slug", message := "String must contain at most 100 character(s)" }]
          else []) ++
       (if slugOk s then []
          else [{ path := "slug", message := "Slug must be lowercase alphanumeric with hyphens" }]),
       s)

/-- The `accentColor` field: hex-color regex with default `'#0ff'`. -/
def checkAccentColor (r : Option String) : List Issue × String :=
  match r with
  | none => ([], "#0ff")
  | some s =>
      (if hexColorOk s then []
         else [{ path := "accentColor", message := "Invalid hex color" }], s)

/-- The `technologies` field: `z.array(z.string()).default([])`. -/
def checkTechnologies (r : Option (List String)) : List Issue × List String :=
  match r with
  | none => ([], [])
  | some xs => ([], xs)

/-- A boolean flag with a zod default (`published` defaults true, `featured`
defaults false). -/
def checkBoolDefault (r : Option Bool) (dflt : Bool) : List Issue × Bool :=
  ([], r.getD dflt)

/-- The `order` field: `z.number().int().min(0).default(0)`. -/
def checkOrder (r : Option Int) : List Issue × Int :=
  match r with
  | none => ([], 0)
  | some n =>
      (if n < 0
         then [{ path := "order", message := "Number must be greater than or equal to 0" }]
         else [],
       n)

/-- An optional-URL field of `createProjectSchema`:
`z.preprocess(v => v === '' || v === undefined ? null : v,
z.string().url(msg).nullable()).optional().nullable()`.
The outer `optional` intercepts an absent key before preprocessing, so the
validated value is `absent` (undefined) for an absent key, `null` for a JSON
null or an empty string (the preprocessing turns `''` into `null`, so the
URL-format check never sees it), and the string itself for a valid URL. -/
def checkOptionalUrl (field msg : String) (r : JStr) : List Issue × JStr :=
  match r with
  | .absent => ([], .absent)
  | .null => ([], .null)
  | .str s =>
      if s = "" then ([], .null)
      else if urlOk s then ([], .str s)
      else ([{ path := field, message := msg }], .null)

/-- A raw request body for project create/update, before validation. -/
structure RawProject where
  slug : Option String
  title : Option RawI18n
  description : Option RawI18n
  technologies : Option (List String)
  accentColor : Option String
  imageUrl : JStr
  githubUrl : JStr
  liveUrl : JStr
  published : Option Bool
  featured : Option Bool
  order : Option Int
  deriving DecidableEq, Repr

/-- Typed output of a successful `createProjectSchema.safeParse`. -/
structure ProjectData where
  slug : String
  title : I18nText
  description : I18nText
  technologies : List String
  accentColor : String
  imageUrl : JStr
  githubUrl : JStr
  liveUrl : JStr
  published : Bool
  featured : Bool
  order : Int
  deriving DecidableEq, Repr

/-- All issues collected by `createProjectSchema.safeParse`, in field
declaration order, every failing field contributing its issues. -/
def createProjectIssues (b : RawProject) : List Issue :=
  (checkSlug b.slug).1 ++
  (checkI18n "title" b.title).1 ++
  (checkI18n "description" b.description).1 ++
  (checkTechnologies b.technologies).1 ++
  (checkAccentColor b.accentColor).1 ++
  (checkOptionalUrl "imageUrl" "Invalid image URL" b.imageUrl).1 ++
  (checkOptionalUrl "githubUrl" "Invalid GitHub URL" b.githubUrl).1 ++
  (checkOptionalUrl "liveUrl" "Invalid live URL" b.liveUrl).1 ++
  (checkOrder b.order).1

/-- The typed value produced when `createProjectIssues` is empty. -/
def createProjectValue (b : RawProject) : ProjectData :=
  { slug := (checkSlug b.slug).2
    title := (checkI18n "title" b.title).2
    description := (checkI18n "description" b.description).2
    technologies := (checkTechnologies b.technologies).2
    accentColor := (checkAccentColor b.accentColor).2
    imageUrl := (checkOptionalUrl "imageUrl" "Invalid image URL" b.imageUrl).2
    githubUrl := (checkOptionalUrl "githubUrl" "Invalid GitHub URL" b.githubUrl).2
    liveUrl := (checkOptionalUrl "liveUrl" "Invalid live URL" b.liveUrl).2
    published := (checkBoolDefault b.published true).2
    featured := (checkBoolDefault b.featured false).2
    order := (checkOrder b.order).2 }

/-- `createProjectSchema.safeParse`: success with the typed data when no
field fails, otherwise failure carrying every collected issue. -/
def createProjectSafeParse (b : RawProject) : Except (List Issue) ProjectData :=
  if createProjectIssues b = [] then .ok (createProjectValue b)
  else .error (createProjectIssues b)

/-- A response of a validating endpoint: status plus the `details` array. -/
structure ValResponse where
  status : Nat
  details : List Issue
  deriving DecidableEq, Repr

/-- `POST /api/admin/projects`: after the `isAdmin` gate, `safeParse` the
body; on failure answer 400 with `details: result.error.errors` (all
issues); on success answer 400 on a slug conflict, else 201. -/
def postAdminProjects (isAdminReq : Bool) (slugTaken : String → Bool)
    (b : RawProject) : ValResponse :=
  if !isAdminReq then { status := 401, details := [] }
  else
    match createProjectSafeParse b with
    | .error issues => { status := 400, details := issues }
    | .ok d =>
        if slugTaken d.slug then { status := 400, details := [] }
        else { status := 201, details := [] }

/-- A concrete body whose `slug` and `accentColor` are simultaneously
invalid while every other field is valid. -/
def twoBadFieldsBody : RawProject :=
  { slug := some "BAD SLUG"
    title := some { en := some "T", es := some "T" }
    description := some { en := some "D", es := some "D" }
    technologies := some ["ts"]
    accentColor := some "red"
    imageUrl := .absent
    githubUrl := .absent
    liveUrl := .absent
    published := some true
    featured := some false
    order := some 0 }

/-! ## The project PATCH handler's URL persistence
(`src/app/api/admin/projects/[id]/route.ts`)

```
githubUrl: result.data.githubUrl === '' ? null : result.data.githubUrl ?? undefined,
```
over the validated value; in Prisma, `undefined` omits the field from the
update statement (leave untouched) while `null` writes SQL NULL. -/

/-- Prisma update intent for one nullable column: omitted from the update
statement, set to NULL, or set to a value. -/
inductive UpdateVal where
  | omit
  | set (v : Option String)
  deriving DecidableEq, Repr

/-- The PATCH handler's expression `x === '' ? null : x ?? undefined` on a
validated optional-URL value `x`.  The `=== ''` branch would map an empty
string to an explicit NULL write, but validation already replaced `''` by
`null`, and `null ?? undefined` is `undefined`, which omits the field. -/
def patchUrlUpdate (x : JStr) : UpdateVal :=
  match x with
  | .str s => if s = "" then .set none else .set (some s)
  | .null => .omit
  | .absent => .omit

/-- The create handler's expression `x || null` on a validated optional-URL
value `x` (JavaScript `||`: `undefined`, `null` and `''` are all falsy). -/
def createUrlPersist (x : JStr) : Option String :=
  match x with
  | .str s => if s = "" then none else some s
  | .null => none
  | .absent => none

/-- Applying a Prisma update intent to a stored nullable column. -/
def applyUrlUpdate (old : Option String) (u : UpdateVal) : Option String :=
  match u with
  | .omit => old
  | .set v => v

/-! ## Public read endpoints (`src/app/api/projects` and
`src/app/api/certifications`) -/

/-- A stored project row (the fields the public read queries consult). -/
structure StoredProject where
  id : String
  slug : String
  published : Bool
  featured : Bool
  deriving DecidableEq, Repr

/-- A stored certification row. -/
structure StoredCert where
  id : String
  published : Bool
  featured : Bool
  deriving DecidableEq, Repr

/-- A single-record read response: 200 with data, or 404 with none. -/
structure ReadResp (α : Type) where
  status : Nat
  data : Option α

/-- `GET /api/projects`: `findMany` with `where: published: true` plus the
optional `featured=true` query filter. -/
def publicProjectsGET (store : List StoredProject) (featuredParam : Bool) :
    List StoredProject :=
  store.filter (fun p => p.published && (!featuredParam || p.featured))

/-- `GET /api/projects/[id]`: `findFirst` matching the id or the slug, with
`published: true`; 404 when nothing matches. -/
def publicProjectByIdGET (store : List StoredProject) (idOrSlug : String) :
    ReadResp StoredProject :=
  match store.find? (fun p => (p.id = idOrSlug || p.slug = idOrSlug) && p.published) with
  | some p => { status := 200, data := some p }
  | none => { status := 404, data := none }

/-- `GET /api/certifications`: `findMany` with `where: published: true`
plus the optional `featured=true` query filter. -/
def publicCertsGET (store : List StoredCert) (featuredParam : Bool) :
    List StoredCert :=
  store.filter (fun c => c.published && (!featuredParam || c.featured))

/-- `GET /api/certifications/[id]`: `findFirst` with the id and
`published: true`; 404 when nothing matches. -/
def publicCertByIdGET (store : List StoredCert) (certId : String) :
    ReadResp StoredCert :=
  match store.find? (fun c => c.id = certId && c.published) with
  | some c => { status := 200, data := some c }
  | none => { status := 404, data := none }

/-! ## Password verification (`comparePassword` in `src/lib/auth.ts`) -/

/-- The pieces of a well-formed bcrypt hash string
`$<version>$<cost>$<22-char salt><31-char digest>`. -/
structure BcryptParts where
  version : String
  cost : Nat
  salt : String
  digest : String
  deriving DecidableEq, Repr

/-- Decimal value of a digit list. -/
def digitsToNat (cs : List Char) : Nat :=
  cs.foldl (fun n c => 10 * n + (c.toNat - '0'.toNat)) 0

/-- Modelled from the spec: the hash-format recognition performed inside the
`bcrypt` library's `compare`, which is an external dependency whose source is
not in this repository.  A stored hash is well-formed when it has the shape
`$2a|2b|2y$<two digits>$<53 chars>` (22 salt characters followed by 31
digest characters); anything else is malformed. -/
def parseBcryptHash (h : String) : Option BcryptParts :=
  match h.data.splitOn '$' with
  | [[], ver, cost, saltDigest] =>
      if (ver = ['2', 'a'] ∨ ver = ['2', 'b'] ∨ ver = ['2', 'y']) ∧
         cost.length = 2 ∧ cost.all Char.isDigit = true ∧ saltDigest.length = 53 then
        some { version := String.mk ver
               cost := digitsToNat cost
               salt := String.mk (saltDigest.take 22)
               digest := String.mk (saltDigest.drop 22) }
      else none
  | _ => none

/-- Modelled from the spec: `comparePassword` in `src/lib/auth.ts` delegates
to `bcrypt.compare`, an external library dependency not in this repository.
Per the spec's Password Verifier contract it is total into a boolean — it
never throws on mismatched input and fails closed (returns `false`) on a
malformed stored hash; on a well-formed hash it recomputes the digest with
the stored salt and cost (the one-way function is a parameter here) and
compares. -/
def comparePassword (bcryptHashFn : String → String → Nat → String)
    (password hash : String) : Bool :=
  match parseBcryptHash hash with
  | none => false
  | some parts => bcryptHashFn password parts.salt parts.cost = parts.digest

/-- A sample unpublished project row, for concrete evaluation. -/
def unpublishedProject : StoredProject :=
  { id := "p1", slug := "proj-one", published := false, featured := false }

/-- A sample unpublished certification row, for concrete evaluation. -/
def unpublishedCert : StoredCert :=
  { id := "c1", published := false, featured := false }

end Portfolio

namespace Portfolio

/-! ## Theorems -/

/-- A path starting with `"/api/admin"` cannot also start with
`"/dashboard"`: the two prefixes disagree at their second character. -/
theorem not_dashboard_of_api_admin (s : String)
    (h : jsStartsWith s "/api/admin" = true) :
    jsStartsWith s "/dashboard" = false := by
  unfold jsStartsWith at h ⊢
  rcases s with ⟨l⟩
  match l with
  | [] => simp [List.isPrefixOf] at h
  | [c] => simp [List.isPrefixOf] at h
  | c1 :: c2 :: rest =>
    simp [List.isPrefixOf] at h ⊢
    intro h1 h2
    rw [← h2] at h
    exact absurd h.2.1 (by decide)

/-- C1: for every admin-prefixed API route and every HTTP method handled
there (the route files handle GET, POST, PUT, PATCH and DELETE — never
OPTIONS), a request carrying no valid session token is answered 401 by the
middleware before any handler runs, and hence never with a 200 success.
This holds for an arbitrary downstream handler, in particular for the
admin-about PUT handler, which performs no authorization check of its own. -/
theorem admin_api_no_session_gives_401 (secret : String) (now : Nat)
    (handler : MwRequest → HttpResponse) (req : MwRequest)
    (hpath : jsStartsWith req.path "/api/admin" = true)
    (hm : req.method ≠ Method.OPTIONS)
    (hsess : validSession secret now req = false) :
    runRoute secret now handler req = { status := 401 } ∧
      (runRoute secret now handler req).status ≠ 200 := by
  have hdash := not_dashboard_of_api_admin req.path hpath
  have hgoal : runRoute secret now handler req = { status := 401 } := by
    unfold runRoute middleware
    match hc : req.cookieToken with
    | none => simp [hpath, hdash, hm, hc]
    | some t =>
      unfold validSession at hsess
      rw [hc] at hsess
      have hsess2 : (verifyToken secret now t).isSome = false := hsess
      match hv : verifyToken secret now t with
      | some p => rw [hv] at hsess2; simp at hsess2
      | none => simp [hpath, hdash, hm, hc, hv]
  exact ⟨hgoal, by rw [hgoal]; decide⟩

/-- C1 witness: a PUT on `/api/admin/about` with no cookie, dispatched to the
admin-about handler (which itself would answer 200), is answered 401. -/
theorem admin_api_no_session_gives_401_witness :
    runRoute "server-secret" 1000 (adminAboutPUT true)
        { path := "/api/admin/about", method := Method.PUT, cookieToken := none }
      = { status := 401 } ∧
    (runRoute "server-secret" 1000 (adminAboutPUT true)
        { path := "/api/admin/about", method := Method.PUT, cookieToken := none }).status ≠ 200 :=
  admin_api_no_session_gives_401 "server-secret" 1000 (adminAboutPUT true)
    { path := "/api/admin/about", method := Method.PUT, cookieToken := none }
    (by decide) (by decide) (by decide)

/-- C2 counterexample: the claim quantifies over every method, but a CORS
preflight OPTIONS request on an admin route is answered 200 by the
middleware without any role check, even when the request carries a valid,
unexpired token whose role is not ADMIN. -/
theorem admin_api_non_admin_options_not_403 :
    (verifyToken "server-secret" 10
        (generateToken "server-secret" 0 { userId := "u1", email := "u@x.io", role := "USER" })
      = some { userId := "u1", email := "u@x.io", role := "USER" }) ∧
    "USER" ≠ "ADMIN" ∧
    runRoute "server-secret" 10 (fun _ => { status := 500 })
        { path := "/api/admin/projects", method := Method.OPTIONS,
          cookieToken := some (generateToken "server-secret" 0
            { userId := "u1", email := "u@x.io", role := "USER" }) }
      = { status := 200 } := by
  refine ⟨by decide, by decide, by decide⟩

/-- C2 (amended): for every admin-prefixed API route and every method other
than OPTIONS (preflight, which the middleware allows unconditionally), a
request presenting a valid, unexpired token whose role claim is not ADMIN is
answered 403 — not 401 and not a success. -/
theorem admin_api_non_admin_role_gives_403 (secret : String) (now : Nat)
    (handler : MwRequest → HttpResponse) (req : MwRequest) (t : SignedToken)
    (p : JWTPayload)
    (hpath : jsStartsWith req.path "/api/admin" = true)
    (hm : req.method ≠ Method.OPTIONS)
    (hcookie : req.cookieToken = some t)
    (hverify : verifyToken secret now t = some p)
    (hrole : p.role ≠ "ADMIN") :
    runRoute secret now handler req = { status := 403 } := by
  have hdash := not_dashboard_of_api_admin req.path hpath
  unfold runRoute middleware
  simp [hpath, hdash, hm, hcookie, hverify, hrole]

/-- C2 witness: a POST to `/api/admin/projects` with a valid token whose
role is `"USER"` is answered 403. -/
theorem admin_api_non_admin_role_gives_403_witness :
    runRoute "server-secret" 10 (fun _ => { status := 500 })
        { path := "/api/admin/projects", method := Method.POST,
          cookieToken := some (generateToken "server-secret" 0
            { userId := "u1", email := "u@x.io", role := "USER" }) }
      = { status := 403 } :=
  admin_api_non_admin_role_gives_403 "server-secret" 10 (fun _ => { status := 500 })
    { path := "/api/admin/projects", method := Method.POST,
      cookieToken := some (generateToken "server-secret" 0
        { userId := "u1", email := "u@x.io", role := "USER" }) }
    (generateToken "server-secret" 0 { userId := "u1", email := "u@x.io", role := "USER" })
    { userId := "u1", email := "u@x.io", role := "USER" }
    (by decide) (by decide) rfl (by decide) (by decide)

/-- C3: round-trip with expiry. Verifying a token produced by
`generateToken` at any time strictly before issued-at plus 7 days
(604800 seconds) returns exactly the embedded claims; verifying it at
issued-at plus 7 days or any later time returns `none` — expiry is absolute
at 7 days from issuance (`jwt.verify` rejects once the clock reaches `exp`). -/
theorem generateToken_verifyToken_roundtrip_expiry (secret : String)
    (issuedAt checkedAt : Nat) (c : JWTPayload) :
    (checkedAt < issuedAt + sevenDaysSecs →
      verifyToken secret checkedAt (generateToken secret issuedAt c) = some c) ∧
    (issuedAt + sevenDaysSecs ≤ checkedAt →
      verifyToken secret checkedAt (generateToken secret issuedAt c) = none) := by
  constructor
  · intro h
    unfold verifyToken generateToken
    rw [if_pos ⟨rfl, h⟩]
  · intro h
    unfold verifyToken generateToken
    rw [if_neg]
    intro hcon
    exact absurd hcon.2 (by simpa using h)

/-- C3 witness: a token issued at time 0 verifies at time 604799 and is
rejected at time 604801 (and the claims come back exactly). -/
theorem generateToken_verifyToken_roundtrip_expiry_witness :
    verifyToken "s" 604799 (generateToken "s" 0 { userId := "u", email := "e", role := "ADMIN" })
      = some { userId := "u", email := "e", role := "ADMIN" } ∧
    verifyToken "s" 604801 (generateToken "s" 0 { userId := "u", email := "e", role := "ADMIN" })
      = none :=
  ⟨(generateToken_verifyToken_roundtrip_expiry "s" 0 604799
      { userId := "u", email := "e", role := "ADMIN" }).1 (by decide),
   (generateToken_verifyToken_roundtrip_expiry "s" 0 604801
      { userId := "u", email := "e", role := "ADMIN" }).2 (by decide)⟩

/-! ## Theorems for claims C4, C9, C10 -/

/-- C4 failing input, evaluated: the dynamic CORS helper (`src/lib/cors.ts`)
does satisfy the claim — in production, `https://evil.example` is not
allow-listed and receives no `Access-Control-Allow-Origin` header, while the
allow-listed `https://alecam.dev` receives exactly itself with credentials —
but the `headers()` snapshot of `next.config.ts` attaches to every `/api`
response, including one whose request origin is `https://evil.example`, an
`Access-Control-Allow-Origin` header holding the comma-joined list of two
origins together with `Access-Control-Allow-Credentials: true`, which the
other snapshot of the same file documents as invalid. -/
theorem nextConfig_static_cors_violates_allow_list :
    (getAllowedOrigins true).contains "https://evil.example" = false ∧
    getCorsHeaders (getAllowedOrigins true) (some "https://evil.example")
      = { allowOrigin := none, allowCredentials := false } ∧
    getCorsHeaders (getAllowedOrigins true) (some "https://alecam.dev")
      = { allowOrigin := some "https://alecam.dev", allowCredentials := true } ∧
    nextConfigStaticCors true
      = { allowOrigin := some "https://alecam.dev,https://www.alecam.dev",
          allowCredentials := true } := by
  refine ⟨by decide, by decide, by decide, by decide⟩

/-- C9: `setAuthCookie` attaches the session token as a cookie whose
attributes are exactly: HTTP-only, `Secure` iff `NODE_ENV` is
`'production'`, `SameSite=Lax`, path `/`, and max-age 604800 seconds. -/
theorem setAuthCookie_attributes (nodeEnv token : String) :
    (setAuthCookie nodeEnv token).name = "auth-token" ∧
    (setAuthCookie nodeEnv token).value = token ∧
    (setAuthCookie nodeEnv token).httpOnly = true ∧
    ((setAuthCookie nodeEnv token).secure = true ↔ nodeEnv = "production") ∧
    (setAuthCookie nodeEnv token).sameSite = "lax" ∧
    (setAuthCookie nodeEnv token).maxAge = 604800 ∧
    (setAuthCookie nodeEnv token).path = "/" := by
  refine ⟨rfl, rfl, rfl, ?_, rfl, rfl, rfl⟩
  simp [setAuthCookie]

/-- C10: `GET /api/about` never answers 404: with no About record it answers
200 with the fixed default object (title About Me / Sobre Mí, empty
descriptions, null shortBio, location and email); with a record it answers
200 with that record's selected fields. -/
theorem aboutGET_never_404 (store : Option AboutRecord) (now : String) :
    (aboutGET store now).status = 200 ∧
    (aboutGET store now).status ≠ 404 ∧
    (store = none → (aboutGET store now).data = defaultAboutData now) ∧
    (∀ a, store = some a →
      (aboutGET store now).data
        = { id := some a.id, title := a.title, description := a.description,
            shortBio := a.shortBio, location := a.location,
            email := a.email, updatedAt := a.updatedAt }) := by
  cases store <;> simp [aboutGET]

/-- C10 witness: concrete evaluations on the empty store and on a store
holding one record. -/
theorem aboutGET_never_404_witness :
    (aboutGET none "2026-02-18").data = defaultAboutData "2026-02-18" ∧
    (aboutGET (some sampleAboutRecord) "now").status = 200 :=
  ⟨(aboutGET_never_404 none "2026-02-18").2.2.1 rfl,
   (aboutGET_never_404 (some sampleAboutRecord) "now").1⟩

/-! ## Theorems for claims C5, C6, C7, C8 -/

/-- C5 failing input, evaluated: submitting `githubUrl: ""` does pass
validation (no issue, normalised to `null`) and on create is persisted as an
explicit null; but on a PATCH update the handler computes
`null ?? undefined`, producing `undefined`, so the column is omitted from
the update statement and a previously stored URL survives unchanged — the
empty string is not persisted as an explicit null on update.  The handler's
own `=== ''` branch (which would have written NULL) is unreachable because
validation already replaced `''` with `null`. -/
theorem patch_empty_url_leaves_field_untouched :
    checkOptionalUrl "githubUrl" "Invalid GitHub URL" (JStr.str "") = ([], JStr.null) ∧
    createUrlPersist (checkOptionalUrl "githubUrl" "Invalid GitHub URL" (JStr.str "")).2
      = none ∧
    patchUrlUpdate (checkOptionalUrl "githubUrl" "Invalid GitHub URL" (JStr.str "")).2
      = UpdateVal.omit ∧
    applyUrlUpdate (some "https://old.example")
        (patchUrlUpdate (checkOptionalUrl "githubUrl" "Invalid GitHub URL" (JStr.str "")).2)
      = some "https://old.example" := by
  refine ⟨by decide, by decide, by decide, by decide⟩

/-- C6: every public read returns only published records, and a record that
is missing or unpublished yields a 404 on the by-id reads — an unpublished
record is never returned by any public read. -/
theorem public_reads_only_published
    (storeP : List StoredProject) (fp : Bool) (idq : String)
    (storeC : List StoredCert) (fc : Bool) (cq : String) :
    (∀ p ∈ publicProjectsGET storeP fp, p.published = true) ∧
    (∀ p, (publicProjectByIdGET storeP idq).data = some p → p.published = true) ∧
    ((∀ p ∈ storeP, (p.id = idq ∨ p.slug = idq) → p.published = false) →
      (publicProjectByIdGET storeP idq).status = 404 ∧
      (publicProjectByIdGET storeP idq).data = none) ∧
    (∀ c ∈ publicCertsGET storeC fc, c.published = true) ∧
    (∀ c, (publicCertByIdGET storeC cq).data = some c → c.published = true) ∧
    ((∀ c ∈ storeC, c.id = cq → c.published = false) →
      (publicCertByIdGET storeC cq).status = 404 ∧
      (publicCertByIdGET storeC cq).data = none) := by
  refine ⟨?_, ?_, ?_, ?_, ?_, ?_⟩
  · intro p hp
    have hpred := (List.mem_filter.mp hp).2
    simp only [Bool.and_eq_true] at hpred
    exact hpred.1
  · intro p hp
    unfold publicProjectByIdGET at hp
    cases hfind : storeP.find? (fun q => (q.id = idq || q.slug = idq) && q.published) with
    | none => rw [hfind] at hp; simp at hp
    | some q =>
      rw [hfind] at hp
      simp only [Option.some.injEq] at hp
      have hq := List.find?_some hfind
      rw [hp] at hq
      simp only [Bool.and_eq_true] at hq
      exact hq.2
  · intro hall
    unfold publicProjectByIdGET
    cases hfind : storeP.find? (fun q => (q.id = idq || q.slug = idq) && q.published) with
    | none => exact ⟨rfl, rfl⟩
    | some q =>
      exfalso
      have hq := List.find?_some hfind
      have hmem := List.mem_of_find?_eq_some hfind
      simp only [Bool.and_eq_true] at hq
      have hand := hq
      have hmatch : q.id = idq ∨ q.slug = idq := by
        simpa using hand.1
      have := hall q hmem hmatch
      rw [this] at hand
      exact absurd hand.2 (by decide)
  · intro c hc
    have hpred := (List.mem_filter.mp hc).2
    simp only [Bool.and_eq_true] at hpred
    exact hpred.1
  · intro c hc
    unfold publicCertByIdGET at hc
    cases hfind : storeC.find? (fun d => d.id = cq && d.published) with
    | none => rw [hfind] at hc; simp at hc
    | some d =>
      rw [hfind] at hc
      simp only [Option.some.injEq] at hc
      have hd := List.find?_some hfind
      rw [hc] at hd
      simp only [Bool.and_eq_true] at hd
      exact hd.2
  · intro hall
    unfold publicCertByIdGET
    cases hfind : storeC.find? (fun d => d.id = cq && d.published) with
    | none => exact ⟨rfl, rfl⟩
    | some d =>
      exfalso
      have hd := List.find?_some hfind
      have hmem := List.mem_of_find?_eq_some hfind
      simp only [Bool.and_eq_true] at hd
      have hand := hd
      have hmatch : d.id = cq := by simpa using hand.1
      have := hall d hmem hmatch
      rw [this] at hand
      exact absurd hand.2 (by decide)

/-- C6 witness: a store holding one unpublished project (certification)
yields 404 with no data on the by-id public reads. -/
theorem public_reads_only_published_witness :
    ((publicProjectByIdGET [unpublishedProject] "p1").status = 404 ∧
     (publicProjectByIdGET [unpublishedProject] "p1").data = none) ∧
    ((publicCertByIdGET [unpublishedCert] "c1").status = 404 ∧
     (publicCertByIdGET [unpublishedCert] "c1").data = none) :=
  ⟨(public_reads_only_published [unpublishedProject] false "p1"
      [unpublishedCert] false "c1").2.2.1 (by decide),
   (public_reads_only_published [unpublishedProject] false "p1"
      [unpublishedCert] false "c1").2.2.2.2.2 (by decide)⟩

/-- C7: password verification fails closed — for every password and every
stored hash string whose shape is not a well-formed bcrypt hash, the
comparison returns `false` (totality into `Bool`, hence never throwing, is
given by the function's type; the hashing primitive is arbitrary). -/
theorem comparePassword_fail_closed (bcryptHashFn : String → String → Nat → String)
    (password hash : String) (hm : parseBcryptHash hash = none) :
    comparePassword bcryptHashFn password hash = false := by
  unfold comparePassword
  rw [hm]

/-- C7 witness: the malformed stored hash `"not-a-hash"` makes the
comparison return `false`, for a concrete hashing primitive. -/
theorem comparePassword_fail_closed_witness :
    comparePassword (fun _ _ _ => "digest") "hunter2" "not-a-hash" = false :=
  comparePassword_fail_closed (fun _ _ _ => "digest") "hunter2" "not-a-hash" (by decide)

/-- C8: when body validation fails, `POST /api/admin/projects` answers 400
(a client error, not 500) and its `details` array is exactly the collected
issue list, which contains every failing field's issues — not only the
first. -/
theorem postAdminProjects_validation_enumerates_all (slugTaken : String → Bool)
    (b : RawProject) (h : createProjectIssues b ≠ []) :
    (postAdminProjects true slugTaken b).status = 400 ∧
    (postAdminProjects true slugTaken b).status ≠ 500 ∧
    (postAdminProjects true slugTaken b).details = createProjectIssues b ∧
    (∀ i ∈ createProjectIssues b, i ∈ (postAdminProjects true slugTaken b).details) := by
  have hp : postAdminProjects true slugTaken b
      = { status := 400, details := createProjectIssues b } := by
    unfold postAdminProjects createProjectSafeParse
    simp [h]
  rw [hp]
  exact ⟨rfl, (by decide : (400 : Nat) ≠ 500), rfl, fun i hi => hi⟩

/-- C8 witness: a body with an invalid slug and an invalid accent color
simultaneously gets a 400 whose details contain both field errors. -/
theorem postAdminProjects_validation_enumerates_all_witness :
    (postAdminProjects true (fun _ => false) twoBadFieldsBody).status = 400 ∧
    { path := "slug", message := "Slug must be lowercase alphanumeric with hyphens" }
      ∈ (postAdminProjects true (fun _ => false) twoBadFieldsBody).details ∧
    { path := "accentColor", message := "Invalid hex color" }
      ∈ (postAdminProjects true (fun _ => false) twoBadFieldsBody).details := by
  have h := postAdminProjects_validation_enumerates_all (fun _ => false)
    twoBadFieldsBody (by decide)
  exact ⟨h.1, h.2.2.2 _ (by decide), h.2.2.2 _ (by decide)⟩

end Portfolio
